import Mathlib

/-!
# slack-libpurple: slash-command handling (`slack-cmd.c`)

A shallow embedding of the command handlers of `slack-cmd.c` and of the
name-derivation loop of `slack_cmd_register`, followed by theorems about them.

Modelling conventions.

* A C string is the list of its characters, the terminating NUL left implicit.
  Reading one position past the last character yields the terminator.
* A pointer that may be `NULL` is an `Option`.
* A NULL-terminated vector (`gchar **`) is a list; reading the position just
  past the last element yields `NULL`.
* A handler's calls to its collaborators are recorded, in program order, as a
  list of `Effect`s.  The `time(NULL)` argument of `purple_conversation_write`
  is not recorded.
* Bodies of collaborators that live in other translation units are parameters
  (`Host`).
-/

namespace SlackCmd

/-! ## C strings -/

/-- A C string: its characters, without the terminator. -/
abbrev CStr := List Char

/-- The string terminator. -/
def NUL : Char := Char.ofNat 0

/-- The C expression `s[i]` for `i` at most `strlen(s)`. -/
def char_at (s : CStr) (i : Nat) : Char := s.getD i NUL

/-- The C library function `strstr(haystack, needle)`.  `none` is `NULL`; `some (before, s)`
gives the characters before the first occurrence and the string `s` the returned pointer
designates (the occurrence and everything after it). -/
def strstr : CStr → CStr → Option (CStr × CStr)
  | [], needle => if needle = [] then some ([], []) else none
  | c :: hay, needle =>
    if needle.isPrefixOf (c :: hay) then some ([], c :: hay)
    else match strstr hay needle with
      | none => none
      | some (before, s) => some (c :: before, s)

/-- The largest `gint`. -/
def G_MAXINT : Nat := 2147483647

/-- The loop of GLib `g_strsplit`:
`while (--max_tokens && s) { add g_strndup(remainder, s - remainder);
remainder = s + delimiter_len; s = strstr(remainder, delimiter); }`
with `s = strstr(remainder, delimiter)` on entry.  The first argument is `max_tokens` before
the decrement (at least 1).  Returns the tokens added and the final `remainder`. -/
def g_strsplit_loop (delimiter : CStr) : Nat → CStr → List CStr × CStr
  | 0, remainder => ([], remainder)
  | max_tokens + 1, remainder =>
    if max_tokens = 0 then ([], remainder)
    else match strstr remainder delimiter with
      | none => ([], remainder)
      | some (before, s) =>
        let r := g_strsplit_loop delimiter max_tokens (s.drop delimiter.length)
        (before :: r.1, r.2)

/-- The GLib function `g_strsplit(string, delimiter, max_tokens)` for a non-empty `delimiter`: the
NULL-terminated vector it returns, as a list.  The remainder is appended as the last token
only `if (*string)`, so the empty string gives the empty vector. -/
def g_strsplit (string delimiter : CStr) (max_tokens : Int) : List CStr :=
  let n : Nat := if max_tokens < 1 then G_MAXINT else max_tokens.toNat
  let r := g_strsplit_loop delimiter n string
  if char_at string 0 ≠ NUL then r.1 ++ [r.2] else r.1

/-! ## Host types -/

/-- The libpurple account a conversation belongs to (`conv->account`), an opaque handle. -/
structure PurpleAccount where
  handle : Nat
  deriving DecidableEq, Repr

/-- A libpurple conversation; only the `account` member is read here. -/
structure PurpleConversation where
  handle : Nat
  account : PurpleAccount
  deriving DecidableEq, Repr

/-- The plugin's per-account session, an opaque handle. -/
structure SlackAccount where
  handle : Nat
  deriving DecidableEq, Repr

/-- The plugin's object for a remote conversation; only `last_sent` is read here. -/
structure SlackObject where
  handle : Nat
  last_sent : Option CStr
  deriving DecidableEq, Repr

/-- The type `PurpleMessageFlags`, a bit mask. -/
abbrev PurpleMessageFlags := Nat

/-- The libpurple constant `PURPLE_MESSAGE_SYSTEM`. -/
def PURPLE_MESSAGE_SYSTEM : PurpleMessageFlags := 0x0004

/-- The libpurple constant `PURPLE_MESSAGE_ERROR`. -/
def PURPLE_MESSAGE_ERROR : PurpleMessageFlags := 0x0200

/-- The libpurple enumeration `PurpleCmdRet`. -/
inductive PurpleCmdRet
  | PURPLE_CMD_RET_OK
  | PURPLE_CMD_RET_FAILED
  | PURPLE_CMD_RET_CONTINUE
  deriving DecidableEq, Repr

open PurpleCmdRet

/-- A parsed JSON value (`json_value`); numbers other than integers are not represented. -/
inductive json_value
  | json_null
  | json_boolean (b : Bool)
  | json_integer (n : Int)
  | json_string (ptr : CStr)
  | json_array (values : List json_value)
  | json_object (values : List (CStr × json_value))

/-- Modelled from the spec: the macro `json_get_prop_strptr` of `slack-json.h`, which is not
among the sources.  It extracts a string field from the payload if present: the payload must
be an object, and the first member of that name a string; in every other case the result is
`NULL`. -/
def json_get_prop_strptr (json : Option json_value) (prop : CStr) : Option CStr :=
  match json with
  | some (json_value.json_object values) =>
    match values.find? (fun nv => nv.1 = prop) with
    | some (_, json_value.json_string ptr) => some ptr
    | _ => none
  | _ => none

/-- The callback handed to `slack_api_post` together with its `data` pointer. -/
inductive SlackAPICallback
  | send_cmd_cb (data : PurpleConversation)
  deriving DecidableEq, Repr

/-- A call made by a handler to one of its collaborators, with the arguments passed. -/
inductive Effect
  | slack_api_post (sa : SlackAccount) (callback : Option SlackAPICallback) (method : CStr)
      (fields : List (CStr × CStr))
  | slack_thread_switch_to_latest (sa : SlackAccount) (obj : SlackObject)
  | slack_thread_switch_to_channel (sa : SlackAccount) (obj : SlackObject)
  | slack_thread_switch_to_timestamp (sa : SlackAccount) (obj : SlackObject) (ts : CStr)
  | slack_thread_post_to_channel (sa : SlackAccount) (obj : SlackObject) (msg : CStr)
  | slack_thread_post_to_timestamp (sa : SlackAccount) (obj : SlackObject) (ts msg : CStr)
  | slack_thread_get_replies (sa : SlackAccount) (obj : SlackObject) (ts : Option CStr)
  | slack_write_message (sa : SlackAccount) (obj : SlackObject) (text : CStr)
      (flags : PurpleMessageFlags)
  | purple_conversation_write (conv : PurpleConversation) (who : Option CStr) (text : CStr)
      (flags : PurpleMessageFlags)
  deriving DecidableEq, Repr

/-- The collaborators whose results the handlers branch on or pass along. -/
structure Host where
  /-- The session bound to an account, or `NULL`. -/
  get_slack_account : PurpleAccount → Option SlackAccount
  /-- The remote conversation behind a conversation, or `NULL`. -/
  slack_conversation_get_conversation : SlackAccount → PurpleConversation → Option SlackObject
  /-- The channel identifier sent to the API. -/
  slack_conversation_id : SlackObject → CStr
  /-- What `slack_message_to_html` appends to an empty buffer for a message, and the value it
  leaves in `*flags` when started from the given flags. -/
  slack_message_to_html : SlackAccount → CStr → PurpleMessageFlags → CStr × PurpleMessageFlags

/-- What a command handler leaves behind: the returned code, the string stored through the
`error` out-parameter (`none` when nothing was stored), and the calls made. -/
structure CmdResult where
  ret : PurpleCmdRet
  error : Option CStr
  effects : List Effect
  deriving DecidableEq, Repr

/-- The C expression `args && args[0] ? args[0] : ""`. -/
def arg0_or_empty (args : Option (List CStr)) : CStr :=
  match args with
  | some (a :: _) => a
  | _ => []

/-! ## The response callback and the handlers -/

/-- The callback `send_cmd_cb`: the returned `gboolean` and the calls made. -/
def send_cmd_cb (host : Host) (sa : SlackAccount) (data : PurpleConversation)
    (json : Option json_value) (error : Option CStr) : Bool × List Effect :=
  let conv := data
  match error with
  | some error =>
    (false, [Effect.purple_conversation_write conv none error PURPLE_MESSAGE_ERROR])
  | none =>
    match json_get_prop_strptr json "response".toList with
    | some response =>
      let flags : PurpleMessageFlags := PURPLE_MESSAGE_SYSTEM
      let r := host.slack_message_to_html sa response flags
      (false, [Effect.purple_conversation_write conv none r.1 r.2])
    | none => (false, [])

/-- The function `send_cmd`, the handler of the passthrough commands. -/
def send_cmd (host : Host) (conv : PurpleConversation) (cmd : CStr)
    (args : Option (List CStr)) : CmdResult :=
  match host.get_slack_account conv.account with
  | none => ⟨PURPLE_CMD_RET_FAILED, none, []⟩
  | some sa =>
    match host.slack_conversation_get_conversation sa conv with
    | none => ⟨PURPLE_CMD_RET_FAILED, none, []⟩
    | some obj =>
      let msg : CStr := [] ++ [ '/'] ++ cmd
      ⟨PURPLE_CMD_RET_OK, none,
        [Effect.slack_api_post sa (some (SlackAPICallback.send_cmd_cb conv)) "chat.command".toList
          [("channel".toList, host.slack_conversation_id obj),
           ("command".toList, msg),
           ("text".toList, arg0_or_empty args)]]⟩

/-- The function `cmd_edit`, the handler of `edit`. -/
def cmd_edit (host : Host) (conv : PurpleConversation) (_cmd : CStr)
    (args : Option (List CStr)) : CmdResult :=
  match host.get_slack_account conv.account with
  | none => ⟨PURPLE_CMD_RET_FAILED, none, []⟩
  | some sa =>
    match host.slack_conversation_get_conversation sa conv with
    | none => ⟨PURPLE_CMD_RET_FAILED, some "No last sent message".toList, []⟩
    | some obj =>
      match obj.last_sent with
      | none => ⟨PURPLE_CMD_RET_FAILED, some "No last sent message".toList, []⟩
      | some last_sent =>
        ⟨PURPLE_CMD_RET_OK, none,
          [Effect.slack_api_post sa none "chat.update".toList
            [("channel".toList, host.slack_conversation_id obj),
             ("ts".toList, last_sent),
             ("as_user".toList, "true".toList),
             ("text".toList, arg0_or_empty args)]]⟩

/-- The function `cmd_delete`, the handler of `delete`. -/
def cmd_delete (host : Host) (conv : PurpleConversation) (_cmd : CStr)
    (_args : Option (List CStr)) : CmdResult :=
  match host.get_slack_account conv.account with
  | none => ⟨PURPLE_CMD_RET_FAILED, none, []⟩
  | some sa =>
    match host.slack_conversation_get_conversation sa conv with
    | none => ⟨PURPLE_CMD_RET_FAILED, some "No last sent message".toList, []⟩
    | some obj =>
      match obj.last_sent with
      | none => ⟨PURPLE_CMD_RET_FAILED, some "No last sent message".toList, []⟩
      | some last_sent =>
        ⟨PURPLE_CMD_RET_OK, none,
          [Effect.slack_api_post sa none "chat.delete".toList
            [("channel".toList, host.slack_conversation_id obj),
             ("ts".toList, last_sent),
             ("as_user".toList, "true".toList)]]⟩

/-- The branch of `cmd_thread` taken once `split = g_strsplit(line, " ", 2)` is known. -/
def cmd_thread_dispatch (sa : SlackAccount) (obj : SlackObject) (split : List CStr) :
    List Effect :=
  match split with
  | [] => [Effect.slack_thread_switch_to_latest sa obj]
  | split0 :: more =>
    if char_at split0 0 = '/' then
      if char_at split0 1 ≠ NUL then
        [Effect.slack_write_message sa obj
          "thread: First argument must be '/' or a valid timestamp".toList PURPLE_MESSAGE_SYSTEM]
      else
        match more with
        | [] => [Effect.slack_thread_switch_to_channel sa obj]
        | split1 :: _ => [Effect.slack_thread_post_to_channel sa obj split1]
    else
      match more with
      | [] => [Effect.slack_thread_switch_to_timestamp sa obj split0]
      | split1 :: _ => [Effect.slack_thread_post_to_timestamp sa obj split0 split1]

/-- The function `cmd_thread`, the handler of `thread` and `th`. -/
def cmd_thread (host : Host) (conv : PurpleConversation) (_cmd : CStr)
    (args : Option (List CStr)) : CmdResult :=
  match host.get_slack_account conv.account with
  | none => ⟨PURPLE_CMD_RET_FAILED, none, []⟩
  | some sa =>
    match host.slack_conversation_get_conversation sa conv with
    | none => ⟨PURPLE_CMD_RET_FAILED, none, []⟩
    | some obj =>
      match args with
      | none => ⟨PURPLE_CMD_RET_OK, none, [Effect.slack_thread_switch_to_latest sa obj]⟩
      | some [] => ⟨PURPLE_CMD_RET_OK, none, [Effect.slack_thread_switch_to_latest sa obj]⟩
      | some (args0 :: _) =>
        let line : CStr := args0
        let split := g_strsplit line " ".toList 2
        ⟨PURPLE_CMD_RET_OK, none, cmd_thread_dispatch sa obj split⟩

/-- The function `cmd_getthread`, the handler of `getthread` and `gt`.  The timestamp passed on is
`args ? args[0] : ""`, which is `NULL` for an empty argument vector. -/
def cmd_getthread (host : Host) (conv : PurpleConversation) (_cmd : CStr)
    (args : Option (List CStr)) : CmdResult :=
  match host.get_slack_account conv.account with
  | none => ⟨PURPLE_CMD_RET_FAILED, none, []⟩
  | some sa =>
    match host.slack_conversation_get_conversation sa conv with
    | none => ⟨PURPLE_CMD_RET_FAILED, none, []⟩
    | some obj =>
      let ts : Option CStr :=
        match args with
        | none => some []
        | some v => v.head?
      ⟨PURPLE_CMD_RET_OK, none, [Effect.slack_thread_get_replies sa obj ts]⟩

/-! ## Registration -/

/-- The static table `slack_cmds` (without its `NULL` terminator). -/
def slack_cmds : List CStr := [
  "me [your text]:  Display italicized action text, e.g. \"/me does a dance\" will display as \"does a dance\"".toList,
  "msg @someone [your message]:  Send a private direct message to another member".toList,
  "dm @someone [your message]:  Send a private direct message to another member".toList,
  "shrug [your message]:  Appends ¯\\_(&#x30c4;)_/¯ to the end of your message".toList,
  "archive:  Archive the current channel".toList,
  "collapse:  Collapse all inline images and video in the current channel (opposite of /expand)".toList,
  "expand:  Expand all inline images and video in the current channel (opposite of /collapse)".toList,
  "invite @someone [#channel]:  Invite a member to a channel".toList,
  "join [#channel]:  Open a channel and become a member".toList,
  "kick @someone:  Remove a member from the current channel. This action may be restricted to Workspace Owners or Admins".toList,
  "remove @someone:  Remove a member from the current channel. This action may be restricted to Workspace Owners or Admins".toList,
  "leave:  Leave a channel".toList,
  "close:  Leave a channel".toList,
  "part:  Leave a channel".toList,
  "away:  Toggle your \"away\" status".toList,
  "mute:  Mute a channel (or unmute a channel that is muted)".toList,
  "open [#channel]:  Open a channel".toList,
  "rename [new name]:  Rename a channel (Admin only)".toList,
  "topic [text]:  Set the channel topic".toList,
  "who:  List members in the current channel".toList,
  "remind [@someone or #channel] to [What] [When]:  Set a reminder a member or a channel".toList,
  "remind help:  Learn more about how to set reminders".toList,
  "remind list:  Get a list of reminders you have set".toList,
  "apps:  Search for Slack apps in the App Directory".toList,
  "search [your text]:  Search Slack messages and files".toList,
  "dnd [some description of time]:  Start or end a Do Not Disturb session".toList,
  "feed help [or subscribe, list, remove]:  Manage RSS subscriptions".toList,
  "feedback [your text]:  Send feedback to Slack".toList,
  "prefs:  Open your preferences".toList,
  "shortcuts:  Open the keyboard shortcuts menu".toList,
  "star:  Star the current channel or conversation".toList]

/-- The size of the local array `char cmdbuf[16]`. -/
def sizeof_cmdbuf : Nat := 16

/-- The initial contents of `cmdbuf`, from `char cmdbuf[16] = ""`. -/
def cmdbuf_init : List Char := List.replicate sizeof_cmdbuf NUL

/-- The C string held by a character array: the characters before the first NUL. -/
def cstr_of_array (buf : List Char) : CStr := buf.takeWhile (fun c => c ≠ NUL)

/-- The copying loop of `slack_cmd_register`,
`for (i = 0; cmd[i] != ' ' && cmd[i] != ':' && cmd[i] && i < sizeof(cmdbuf)-1; i++)
cmdbuf[i] = cmd[i];`, from the state where the index is `i`.  The first argument is the part
of `cmd` from position `i` on, so that its head is `cmd[i]` and the empty list stands for
`cmd[i]` being the terminator.  Returns the final `i` and `cmdbuf`. -/
def copy_cmd_name : CStr → Nat → List Char → Nat × List Char
  | [], i, cmdbuf => (i, cmdbuf)
  | c :: rest, i, cmdbuf =>
    if c ≠ ' ' ∧ c ≠ ':' ∧ c ≠ NUL ∧ i < sizeof_cmdbuf - 1 then
      copy_cmd_name rest (i + 1) (cmdbuf.set i c)
    else (i, cmdbuf)

/-- One pass of the `while (*cmdp)` body up to the registration call: the copying loop
followed by `cmdbuf[i] = 0`.  Returns the array `cmdbuf` as the pass leaves it. -/
def derive_cmdbuf (cmd : CStr) (cmdbuf : List Char) : List Char :=
  let r := copy_cmd_name cmd 0 cmdbuf
  r.2.set r.1 NUL

/-- The name passed to `purple_cmd_register` for a catalogue entry, given the contents of
`cmdbuf` left by the previous pass. -/
def derive_cmd_name (cmd : CStr) (cmdbuf : List Char) : CStr :=
  cstr_of_array (derive_cmdbuf cmd cmdbuf)

/-- The handler functions of this file. -/
inductive PurpleCmdFunc
  | send_cmd
  | cmd_edit
  | cmd_delete
  | cmd_thread
  | cmd_getthread
  deriving DecidableEq, Repr

/-- The libpurple command flags used here. -/
inductive PurpleCmdFlag
  | PURPLE_CMD_FLAG_IM
  | PURPLE_CMD_FLAG_CHAT
  | PURPLE_CMD_FLAG_PRPL_ONLY
  | PURPLE_CMD_FLAG_ALLOW_WRONG_ARGS
  deriving DecidableEq, Repr

open PurpleCmdFlag

/-- The arguments of one `purple_cmd_register` call.  The priority (always
`PURPLE_CMD_P_PRPL`), the plugin id (always `SLACK_PLUGIN_ID`) and the data pointer (always
`NULL`) are left out; the flag mask is the list of the flags or-ed together. -/
structure Registration where
  cmd : CStr
  args : CStr
  flags : List PurpleCmdFlag
  func : PurpleCmdFunc
  helpstr : CStr
  deriving DecidableEq, Repr

/-- The `while (*cmdp)` loop of `slack_cmd_register` over the remaining catalogue entries,
threading `cmdbuf`.  Returns the registrations in the order they are made. -/
def register_catalogue : List CStr → List Char → List Registration
  | [], _ => []
  | cmd :: cmdp, cmdbuf =>
    let cmdbuf1 := derive_cmdbuf cmd cmdbuf
    { cmd := cstr_of_array cmdbuf1, args := "s".toList,
      flags := [PURPLE_CMD_FLAG_CHAT, PURPLE_CMD_FLAG_IM, PURPLE_CMD_FLAG_PRPL_ONLY,
        PURPLE_CMD_FLAG_ALLOW_WRONG_ARGS],
      func := PurpleCmdFunc.send_cmd, helpstr := cmd } :: register_catalogue cmdp cmdbuf1

/-- The text `g_string_printf(thread_help, thread_fmt, name, ...)` produces: every `%s` of
`thread_fmt` replaced by the name. -/
def thread_help (name : String) : CStr :=
  (name ++ " [thread-timestamp [message]]:  Post messages in threads.\n"
    ++ "This command can be used in several ways. One can either switch focus to a thread, causing all messages to be "
    ++ "posted to that thread, or post single messages to a thread. See these usage examples:\n"
    ++ "- /" ++ name ++ " thread-timestamp:  Switch to thread with given timestamp.\n"
    ++ "- /" ++ name ++ " /:  Switch back to channel.\n"
    ++ "- /" ++ name ++ ":  Switch to the thread of the latest message. Switches to main channel if the latest reply was not threaded.\n"
    ++ "- /" ++ name ++ " thread-timestamp message:  Post single message to the thread with the given timestamp.\n"
    ++ "- /" ++ name ++ " / message:  Post single message to main channel.").toList

/-- The function `slack_cmd_register`: the registrations it makes, in order, over a catalogue. -/
def slack_cmd_register (catalogue : List CStr) : List Registration :=
  register_catalogue catalogue cmdbuf_init ++ [
    { cmd := "edit".toList, args := "s".toList,
      flags := [PURPLE_CMD_FLAG_IM, PURPLE_CMD_FLAG_CHAT, PURPLE_CMD_FLAG_PRPL_ONLY],
      func := PurpleCmdFunc.cmd_edit,
      helpstr := "edit [new message]: edit your last message to be new message".toList },
    { cmd := "delete".toList, args := [],
      flags := [PURPLE_CMD_FLAG_IM, PURPLE_CMD_FLAG_CHAT, PURPLE_CMD_FLAG_PRPL_ONLY],
      func := PurpleCmdFunc.cmd_delete,
      helpstr := "delete: remove your last message".toList },
    { cmd := "th".toList, args := "s".toList,
      flags := [PURPLE_CMD_FLAG_IM, PURPLE_CMD_FLAG_CHAT, PURPLE_CMD_FLAG_PRPL_ONLY,
        PURPLE_CMD_FLAG_ALLOW_WRONG_ARGS],
      func := PurpleCmdFunc.cmd_thread, helpstr := thread_help "th" },
    { cmd := "thread".toList, args := "s".toList,
      flags := [PURPLE_CMD_FLAG_IM, PURPLE_CMD_FLAG_CHAT, PURPLE_CMD_FLAG_PRPL_ONLY,
        PURPLE_CMD_FLAG_ALLOW_WRONG_ARGS],
      func := PurpleCmdFunc.cmd_thread, helpstr := thread_help "thread" },
    { cmd := "getthread".toList, args := "s".toList,
      flags := [PURPLE_CMD_FLAG_IM, PURPLE_CMD_FLAG_CHAT, PURPLE_CMD_FLAG_PRPL_ONLY],
      func := PurpleCmdFunc.cmd_getthread,
      helpstr := "getthread [thread-timestamp]: Fetch given thread".toList },
    { cmd := "gt".toList, args := "s".toList,
      flags := [PURPLE_CMD_FLAG_IM, PURPLE_CMD_FLAG_CHAT, PURPLE_CMD_FLAG_PRPL_ONLY],
      func := PurpleCmdFunc.cmd_getthread,
      helpstr := "gt [thread-timestamp]: Fetch given thread".toList }]

/-- The token a catalogue entry begins with: its characters before the first space or
colon. -/
def cmd_token (cmd : CStr) : CStr := cmd.takeWhile (fun c => decide (c ≠ ' ' ∧ c ≠ ':'))

/-- The characters the copying loop accepts: no space, no colon, not the terminator. -/
def name_char (c : Char) : Bool := decide (c ≠ ' ' ∧ c ≠ ':' ∧ c ≠ NUL)

/-- The registration `slack_cmd_register` makes for a catalogue entry under a given name. -/
def catalogue_registration (name cmd : CStr) : Registration :=
  { cmd := name, args := "s".toList,
    flags := [PURPLE_CMD_FLAG_CHAT, PURPLE_CMD_FLAG_IM, PURPLE_CMD_FLAG_PRPL_ONLY,
      PURPLE_CMD_FLAG_ALLOW_WRONG_ARGS],
    func := PurpleCmdFunc.send_cmd, helpstr := cmd }

/-! ## Fixtures for the concrete instances -/

/-- A session handle used in the concrete instances. -/
def example_sa : SlackAccount := ⟨7⟩

/-- A remote conversation whose last sent message has timestamp `111.222`. -/
def example_obj : SlackObject := ⟨3, some "111.222".toList⟩

/-- A remote conversation in which nothing has been sent yet. -/
def example_obj_fresh : SlackObject := ⟨4, none⟩

/-- A host in which account 1 has a session, conversation 1 resolves to `example_obj`,
conversation 2 to `example_obj_fresh`, and nothing else resolves; the markup conversion
prefixes the text with `*` and leaves the flags alone. -/
def example_host : Host where
  get_slack_account := fun a => if a.handle = 1 then some example_sa else none
  slack_conversation_get_conversation := fun _ conv =>
    if conv.handle = 1 then some example_obj
    else if conv.handle = 2 then some example_obj_fresh else none
  slack_conversation_id := fun obj => if obj.handle = 3 then "C024BE91L".toList else "D0000".toList
  slack_message_to_html := fun _ text flags => ( '*' :: text, flags)

/-- A conversation of account 1 that resolves to `example_obj`. -/
def example_conv : PurpleConversation := ⟨1, ⟨1⟩⟩

/-- A conversation of account 1 that resolves to `example_obj_fresh`. -/
def example_conv_fresh : PurpleConversation := ⟨2, ⟨1⟩⟩

/-- A conversation of account 1 that does not resolve. -/
def example_conv_unresolved : PurpleConversation := ⟨9, ⟨1⟩⟩

/-- A conversation of an account without a session. -/
def example_conv_unbound : PurpleConversation := ⟨1, ⟨5⟩⟩

/-! ## Facts about the string functions -/

/-- The delimiter literal passed to `g_strsplit` is the one-character string. -/
theorem space_toList : " ".toList = [ ' '] := rfl

/-- Searching a space in a string without one finds nothing. -/
theorem strstr_space_none (s : CStr) (h : ' ' ∉ s) : strstr s [ ' '] = none := by
  induction s with
  | nil => simp [strstr]
  | cons c t ih =>
    have hc : ¬ (' ' = c) := fun e => h (e ▸ List.mem_cons_self _ _)
    have hc2 : ¬ (c = ' ') := fun e => hc e.symm
    have ht : ' ' ∉ t := fun e => h (List.mem_cons_of_mem _ e)
    simp [strstr, ih ht, hc, hc2, List.isPrefixOf]

/-- Searching a space finds the first one: what precedes it is space-free. -/
theorem strstr_space_some (head rest : CStr) (h : ' ' ∉ head) :
    strstr (head ++ ' ' :: rest) [ ' '] = some (head, ' ' :: rest) := by
  induction head with
  | nil => simp [strstr, List.isPrefixOf]
  | cons c t ih =>
    have hc : ¬ (' ' = c) := fun e => h (e ▸ List.mem_cons_self _ _)
    have hc2 : ¬ (c = ' ') := fun e => hc e.symm
    have ht : ' ' ∉ t := fun e => h (List.mem_cons_of_mem _ e)
    simp [strstr, ih ht, hc, hc2, List.isPrefixOf]

/-- Splitting the empty string gives the empty vector. -/
theorem g_strsplit_empty : g_strsplit [] [ ' '] 2 = [] := by
  simp [g_strsplit, g_strsplit_loop, char_at, strstr]

/-- Splitting a non-empty string without a space gives the string alone. -/
theorem g_strsplit_no_space (s : CStr) (h0 : char_at s 0 ≠ NUL) (h : ' ' ∉ s) :
    g_strsplit s [ ' '] 2 = [s] := by
  simp [g_strsplit, g_strsplit_loop, strstr_space_none s h, h0]

/-- Splitting in at most two tokens cuts at the first space only. -/
theorem g_strsplit_space (head rest : CStr) (h0 : char_at (head ++ ' ' :: rest) 0 ≠ NUL)
    (h : ' ' ∉ head) : g_strsplit (head ++ ' ' :: rest) [ ' '] 2 = [head, rest] := by
  simp [g_strsplit, g_strsplit_loop, strstr_space_some head rest h, h0]

/-! ## The thread command -/

/-- Once the session and conversation resolve and a first argument is present, `cmd_thread`
returns OK after the calls its dispatch makes on the split argument. -/
theorem cmd_thread_resolved (host : Host) (conv : PurpleConversation) (cmd : CStr)
    (sa : SlackAccount) (obj : SlackObject) (text : CStr) (more : List CStr)
    (hsa : host.get_slack_account conv.account = some sa)
    (hobj : host.slack_conversation_get_conversation sa conv = some obj) :
    cmd_thread host conv cmd (some (text :: more)) =
      ⟨PURPLE_CMD_RET_OK, none, cmd_thread_dispatch sa obj (g_strsplit text [ ' '] 2)⟩ := by
  simp [cmd_thread, hsa, hobj, space_toList]

/-- The first character of a non-empty C string is not the terminator. -/
theorem at_zero_of_not_mem {text : CStr} (hne : text ≠ []) (hcstr : NUL ∉ text) :
    char_at text 0 ≠ NUL := by
  cases text with
  | nil => exact absurd rfl hne
  | cons c t =>
    intro e
    exact hcstr (by simp [char_at] at e; simp [e])

/-- C1. With the session and conversation resolved, a non-empty argument text (a C string)
whose first character is neither `/` nor a space makes `cmd_thread` return OK with exactly one
call and no error: without a space it switches to the thread whose timestamp is the whole
text; with one it posts to the thread `head` the message `rest`, where `head` is the
space-free text before the first space and `rest` everything after that space. -/
theorem cmd_thread_timestamp (host : Host) (conv : PurpleConversation) (cmd : CStr)
    (sa : SlackAccount) (obj : SlackObject) (text : CStr) (more : List CStr)
    (hsa : host.get_slack_account conv.account = some sa)
    (hobj : host.slack_conversation_get_conversation sa conv = some obj)
    (hcstr : NUL ∉ text) (hne : text ≠ [])
    (hslash : text.head? ≠ some '/') (hspace : text.head? ≠ some ' ') :
    (' ' ∉ text → cmd_thread host conv cmd (some (text :: more)) =
      ⟨PURPLE_CMD_RET_OK, none, [Effect.slack_thread_switch_to_timestamp sa obj text]⟩) ∧
    (∀ head rest : CStr, text = head ++ ' ' :: rest → ' ' ∉ head →
      cmd_thread host conv cmd (some (text :: more)) =
      ⟨PURPLE_CMD_RET_OK, none, [Effect.slack_thread_post_to_timestamp sa obj head rest]⟩) ∧
    (' ' ∈ text → ∃ head rest : CStr, text = head ++ ' ' :: rest ∧ ' ' ∉ head ∧
      cmd_thread host conv cmd (some (text :: more)) =
      ⟨PURPLE_CMD_RET_OK, none, [Effect.slack_thread_post_to_timestamp sa obj head rest]⟩) := by
  have h0 : char_at text 0 ≠ NUL := at_zero_of_not_mem hne hcstr
  have hfirst : ¬ (char_at text 0 = '/') := by
    cases text with
    | nil => exact absurd rfl hne
    | cons c t =>
      intro e
      apply hslash
      simp [char_at] at e
      simp [e]
  have key : ∀ head rest : CStr, text = head ++ ' ' :: rest → ' ' ∉ head →
      cmd_thread host conv cmd (some (text :: more)) =
      ⟨PURPLE_CMD_RET_OK, none, [Effect.slack_thread_post_to_timestamp sa obj head rest]⟩ := by
    intro head rest htext hhead
    have hhd : ¬ (char_at head 0 = '/') := by
      cases head with
      | nil => simp [char_at, NUL]
      | cons c t =>
        rw [htext] at hfirst
        simpa [char_at] using hfirst
    rw [cmd_thread_resolved host conv cmd sa obj text more hsa hobj]
    rw [htext] at h0
    rw [htext, g_strsplit_space head rest h0 hhead]
    simp [cmd_thread_dispatch, hhd]
  refine ⟨?_, key, ?_⟩
  · intro hno
    rw [cmd_thread_resolved host conv cmd sa obj text more hsa hobj,
      g_strsplit_no_space text h0 hno]
    simp [cmd_thread_dispatch, hfirst]
  · intro hmem
    obtain ⟨head, rest, htext, hhead⟩ := List.eq_append_cons_of_mem hmem
    exact ⟨head, rest, htext, hhead, key head rest htext hhead⟩

/-- Instance of C1: `1234.5678 hi there` posts `hi there` to the thread `1234.5678`. -/
theorem cmd_thread_timestamp_witness :
    NUL ∉ "1234.5678 hi there".toList ∧
    cmd_thread example_host example_conv "thread".toList (some ["1234.5678 hi there".toList]) =
      ⟨PURPLE_CMD_RET_OK, none,
        [Effect.slack_thread_post_to_timestamp example_sa example_obj "1234.5678".toList
          "hi there".toList]⟩ :=
  ⟨by decide,
   (cmd_thread_timestamp example_host example_conv "thread".toList example_sa example_obj
      "1234.5678 hi there".toList [] (by decide) (by decide) (by decide) (by decide) (by decide)
      (by decide)).2.1 "1234.5678".toList "hi there".toList (by decide) (by decide)⟩

/-- Further instances of C1: a bare timestamp switches to that thread, and a message keeps
its inner spaces. -/
theorem cmd_thread_timestamp_examples :
    cmd_thread example_host example_conv "thread".toList (some ["1234.5678".toList]) =
      ⟨PURPLE_CMD_RET_OK, none,
        [Effect.slack_thread_switch_to_timestamp example_sa example_obj "1234.5678".toList]⟩ ∧
    cmd_thread example_host example_conv "thread".toList (some ["111.222 ship it".toList]) =
      ⟨PURPLE_CMD_RET_OK, none,
        [Effect.slack_thread_post_to_timestamp example_sa example_obj "111.222".toList
          "ship it".toList]⟩ ∧
    cmd_thread example_host example_conv "th".toList (some ["111.222  a  b ".toList]) =
      ⟨PURPLE_CMD_RET_OK, none,
        [Effect.slack_thread_post_to_timestamp example_sa example_obj "111.222".toList
          " a  b ".toList]⟩ := by
  decide

/-- C2. With the session and conversation resolved, the argument text `/` makes `cmd_thread`
switch to the channel, and the text `/ ` followed by any message `m` (empty or with spaces)
makes it post `m` to the channel; either way that is the only call, no error is stored and
OK is returned. -/
theorem cmd_thread_channel (host : Host) (conv : PurpleConversation) (cmd : CStr)
    (sa : SlackAccount) (obj : SlackObject) (more : List CStr)
    (hsa : host.get_slack_account conv.account = some sa)
    (hobj : host.slack_conversation_get_conversation sa conv = some obj) :
    cmd_thread host conv cmd (some ([ '/'] :: more)) =
      ⟨PURPLE_CMD_RET_OK, none, [Effect.slack_thread_switch_to_channel sa obj]⟩ ∧
    ∀ m : CStr, cmd_thread host conv cmd (some (( '/' :: ' ' :: m) :: more)) =
      ⟨PURPLE_CMD_RET_OK, none, [Effect.slack_thread_post_to_channel sa obj m]⟩ := by
  constructor
  · rw [cmd_thread_resolved host conv cmd sa obj _ more hsa hobj,
      g_strsplit_no_space [ '/'] (by decide) (by decide)]
    simp [cmd_thread_dispatch, char_at]
  · intro m
    rw [cmd_thread_resolved host conv cmd sa obj _ more hsa hobj]
    have h := g_strsplit_space [ '/'] m (by simp [char_at]; decide) (by decide)
    simp only [List.singleton_append] at h
    rw [h]
    simp [cmd_thread_dispatch, char_at]

/-- Instance of C2: `/` switches to the channel and `/ hello` posts `hello` to it. -/
theorem cmd_thread_channel_witness :
    cmd_thread example_host example_conv "th".toList (some ["/".toList]) =
      ⟨PURPLE_CMD_RET_OK, none, [Effect.slack_thread_switch_to_channel example_sa example_obj]⟩ ∧
    cmd_thread example_host example_conv "th".toList (some ["/ hello".toList]) =
      ⟨PURPLE_CMD_RET_OK, none,
        [Effect.slack_thread_post_to_channel example_sa example_obj "hello".toList]⟩ :=
  have h := cmd_thread_channel example_host example_conv "th".toList example_sa example_obj []
    (by decide) (by decide)
  ⟨h.1, h.2 "hello".toList⟩

/-- C3. With the session and conversation resolved, an argument text (a C string) that
begins with `/` followed at once by a character other than a space makes `cmd_thread` write
exactly one system message into the conversation, make no other call (no switch, no post, no
request), store no error and return OK. -/
theorem cmd_thread_invalid (host : Host) (conv : PurpleConversation) (cmd : CStr)
    (sa : SlackAccount) (obj : SlackObject) (c : Char) (rest : CStr) (more : List CStr)
    (hsa : host.get_slack_account conv.account = some sa)
    (hobj : host.slack_conversation_get_conversation sa conv = some obj)
    (hcstr : NUL ∉ '/' :: c :: rest) (hc : c ≠ ' ') :
    cmd_thread host conv cmd (some (( '/' :: c :: rest) :: more)) =
      ⟨PURPLE_CMD_RET_OK, none,
        [Effect.slack_write_message sa obj
          "thread: First argument must be '/' or a valid timestamp".toList
          PURPLE_MESSAGE_SYSTEM]⟩ := by
  have hcn : c ≠ NUL := fun e => hcstr (by simp [e])
  have h0 : char_at ( '/' :: c :: rest) 0 ≠ NUL := by simp [char_at]; decide
  rw [cmd_thread_resolved host conv cmd sa obj _ more hsa hobj]
  by_cases hmem : ' ' ∈ '/' :: c :: rest
  · obtain ⟨head, tail, htext, hhead⟩ := List.eq_append_cons_of_mem hmem
    rw [htext] at h0
    rw [htext, g_strsplit_space head tail h0 hhead]
    match head, htext with
    | [], htext => simp at htext
    | [_], htext =>
      simp at htext
      exact absurd htext.2.1 hc
    | a :: b :: t, htext =>
      simp at htext
      obtain ⟨ha, hb, _⟩ := htext
      subst ha hb
      simp [cmd_thread_dispatch, char_at, hcn]
  · rw [g_strsplit_no_space _ h0 hmem]
    simp [cmd_thread_dispatch, char_at, hcn]

/-- Instance of C3: `/x some message` is answered with the system message only. -/
theorem cmd_thread_invalid_witness :
    NUL ∉ "/x some message".toList ∧
    cmd_thread example_host example_conv "thread".toList (some ["/x some message".toList]) =
      ⟨PURPLE_CMD_RET_OK, none,
        [Effect.slack_write_message example_sa example_obj
          "thread: First argument must be '/' or a valid timestamp".toList
          PURPLE_MESSAGE_SYSTEM]⟩ :=
  ⟨by decide,
   cmd_thread_invalid example_host example_conv "thread".toList example_sa example_obj 'x'
    " some message".toList [] (by decide) (by decide) (by decide) (by decide)⟩

/-- C7. With the session and conversation resolved, an absent argument vector, a vector
whose first entry is `NULL`, and a first argument that is the empty string each make
`cmd_thread` switch to the latest thread: that is the only call, no error is stored and OK is
returned. -/
theorem cmd_thread_latest (host : Host) (conv : PurpleConversation) (cmd : CStr)
    (sa : SlackAccount) (obj : SlackObject) (more : List CStr)
    (hsa : host.get_slack_account conv.account = some sa)
    (hobj : host.slack_conversation_get_conversation sa conv = some obj) :
    cmd_thread host conv cmd none =
      ⟨PURPLE_CMD_RET_OK, none, [Effect.slack_thread_switch_to_latest sa obj]⟩ ∧
    cmd_thread host conv cmd (some []) =
      ⟨PURPLE_CMD_RET_OK, none, [Effect.slack_thread_switch_to_latest sa obj]⟩ ∧
    cmd_thread host conv cmd (some ([] :: more)) =
      ⟨PURPLE_CMD_RET_OK, none, [Effect.slack_thread_switch_to_latest sa obj]⟩ := by
  refine ⟨?_, ?_, ?_⟩
  · simp [cmd_thread, hsa, hobj]
  · simp [cmd_thread, hsa, hobj]
  · rw [cmd_thread_resolved host conv cmd sa obj _ more hsa hobj, g_strsplit_empty]
    simp [cmd_thread_dispatch]

/-- Instance of C7 in the example host. -/
theorem cmd_thread_latest_witness :
    cmd_thread example_host example_conv "thread".toList none =
      ⟨PURPLE_CMD_RET_OK, none, [Effect.slack_thread_switch_to_latest example_sa example_obj]⟩ ∧
    cmd_thread example_host example_conv "thread".toList (some ["".toList]) =
      ⟨PURPLE_CMD_RET_OK, none, [Effect.slack_thread_switch_to_latest example_sa example_obj]⟩ :=
  have h := cmd_thread_latest example_host example_conv "thread".toList example_sa example_obj []
    (by decide) (by decide)
  ⟨h.1, h.2.2⟩

/-- C8. The code departs from the claim on an empty head.  On the single-space text
`cmd_thread` returns OK without switching to the latest thread: `g_strsplit` yields two empty
tokens, the test `split[0] == NULL` does not fire, and the empty message is posted to the
thread with the empty timestamp.  On ` 1234.5678 hi` the whole of `1234.5678 hi` is posted as
the message, again to the empty timestamp. -/
theorem cmd_thread_single_space_posts :
    g_strsplit " ".toList " ".toList 2 = [[], []] ∧
    cmd_thread example_host example_conv "thread".toList (some [" ".toList]) =
      ⟨PURPLE_CMD_RET_OK, none,
        [Effect.slack_thread_post_to_timestamp example_sa example_obj [] []]⟩ ∧
    (cmd_thread example_host example_conv "thread".toList (some [" ".toList])).effects ≠
      [Effect.slack_thread_switch_to_latest example_sa example_obj] ∧
    cmd_thread example_host example_conv "thread".toList (some [" 1234.5678 hi".toList]) =
      ⟨PURPLE_CMD_RET_OK, none,
        [Effect.slack_thread_post_to_timestamp example_sa example_obj []
          "1234.5678 hi".toList]⟩ := by
  decide

/-- Extent of the empty-head defect: with the session and conversation resolved, every
argument text that begins with a space reaches the timestamp branch with an empty first
token, so that everything after that first space is posted to the thread with the empty
timestamp. -/
theorem cmd_thread_leading_space (host : Host) (conv : PurpleConversation) (cmd : CStr)
    (sa : SlackAccount) (obj : SlackObject) (rest : CStr) (more : List CStr)
    (hsa : host.get_slack_account conv.account = some sa)
    (hobj : host.slack_conversation_get_conversation sa conv = some obj) :
    cmd_thread host conv cmd (some (( ' ' :: rest) :: more)) =
      ⟨PURPLE_CMD_RET_OK, none, [Effect.slack_thread_post_to_timestamp sa obj [] rest]⟩ := by
  rw [cmd_thread_resolved host conv cmd sa obj _ more hsa hobj]
  have h := g_strsplit_space [] rest (by simp [char_at]; decide) (by simp)
  simp only [List.nil_append] at h
  rw [h]
  simp [cmd_thread_dispatch, char_at, NUL]

/-- Instance of the empty-head defect: ` hi there` posts `hi there` with the empty timestamp. -/
theorem cmd_thread_leading_space_witness :
    cmd_thread example_host example_conv "thread".toList (some [" hi there".toList]) =
      ⟨PURPLE_CMD_RET_OK, none,
        [Effect.slack_thread_post_to_timestamp example_sa example_obj [] "hi there".toList]⟩ :=
  cmd_thread_leading_space example_host example_conv "thread".toList example_sa example_obj
    "hi there".toList [] (by decide) (by decide)

/-! ## The forwarding handlers -/

/-- C4. With the session and conversation resolved and the conversation's last-sent
timestamp unset, `cmd_edit` and `cmd_delete` both return FAILED, store the error string
`No last sent message` and make no call at all, whatever the command name and arguments. -/
theorem edit_delete_no_last_sent (host : Host) (conv : PurpleConversation) (cmd : CStr)
    (args : Option (List CStr)) (sa : SlackAccount) (obj : SlackObject)
    (hsa : host.get_slack_account conv.account = some sa)
    (hobj : host.slack_conversation_get_conversation sa conv = some obj)
    (hlast : obj.last_sent = none) :
    cmd_edit host conv cmd args =
      ⟨PURPLE_CMD_RET_FAILED, some "No last sent message".toList, []⟩ ∧
    cmd_delete host conv cmd args =
      ⟨PURPLE_CMD_RET_FAILED, some "No last sent message".toList, []⟩ := by
  constructor
  · simp only [cmd_edit, hsa, hobj, hlast]
  · simp only [cmd_delete, hsa, hobj, hlast]

/-- Instance of C4: editing in a conversation in which nothing has been sent. -/
theorem edit_delete_no_last_sent_witness :
    example_obj_fresh.last_sent = none ∧
    cmd_edit example_host example_conv_fresh "edit".toList (some ["new text".toList]) =
      ⟨PURPLE_CMD_RET_FAILED, some "No last sent message".toList, []⟩ ∧
    cmd_delete example_host example_conv_fresh "delete".toList none =
      ⟨PURPLE_CMD_RET_FAILED, some "No last sent message".toList, []⟩ :=
  ⟨rfl,
   (edit_delete_no_last_sent example_host example_conv_fresh "edit".toList
      (some ["new text".toList]) example_sa example_obj_fresh (by decide) (by decide) rfl).1,
   (edit_delete_no_last_sent example_host example_conv_fresh "delete".toList
      none example_sa example_obj_fresh (by decide) (by decide) rfl).2⟩

/-- C5. With the session and conversation resolved, `send_cmd` returns OK after the single
call `chat.command` with the fields channel, command (`/` followed by the command name) and
text (the first argument, or the empty string when there is none), in that order.  When
moreover the last-sent timestamp is `ts`, `cmd_edit` returns OK after the single call
`chat.update` with channel, ts, as_user `true` and text, and `cmd_delete` after the single
call `chat.delete` with channel, ts and as_user `true`. -/
theorem forward_requests (host : Host) (conv : PurpleConversation) (cmd : CStr)
    (args : Option (List CStr)) (sa : SlackAccount) (obj : SlackObject)
    (hsa : host.get_slack_account conv.account = some sa)
    (hobj : host.slack_conversation_get_conversation sa conv = some obj) :
    send_cmd host conv cmd args =
      ⟨PURPLE_CMD_RET_OK, none,
        [Effect.slack_api_post sa (some (SlackAPICallback.send_cmd_cb conv)) "chat.command".toList
          [("channel".toList, host.slack_conversation_id obj),
           ("command".toList, '/' :: cmd),
           ("text".toList, arg0_or_empty args)]]⟩ ∧
    arg0_or_empty none = [] ∧ arg0_or_empty (some []) = [] ∧
    (∀ (a : CStr) (more : List CStr), arg0_or_empty (some (a :: more)) = a) ∧
    ∀ ts : CStr, obj.last_sent = some ts →
      cmd_edit host conv cmd args =
        ⟨PURPLE_CMD_RET_OK, none,
          [Effect.slack_api_post sa none "chat.update".toList
            [("channel".toList, host.slack_conversation_id obj),
             ("ts".toList, ts),
             ("as_user".toList, "true".toList),
             ("text".toList, arg0_or_empty args)]]⟩ ∧
      cmd_delete host conv cmd args =
        ⟨PURPLE_CMD_RET_OK, none,
          [Effect.slack_api_post sa none "chat.delete".toList
            [("channel".toList, host.slack_conversation_id obj),
             ("ts".toList, ts),
             ("as_user".toList, "true".toList)]]⟩ := by
  refine ⟨?_, rfl, rfl, fun _ _ => rfl, ?_⟩
  · simp [send_cmd, hsa, hobj]
  · intro ts hts
    constructor
    · simp only [cmd_edit, hsa, hobj, hts]
    · simp only [cmd_delete, hsa, hobj, hts]

/-- Instance of C5: `/edit new text` with last-sent timestamp `111.222`. -/
theorem forward_requests_witness :
    example_obj.last_sent = some "111.222".toList ∧
    cmd_edit example_host example_conv "edit".toList (some ["new text".toList]) =
      ⟨PURPLE_CMD_RET_OK, none,
        [Effect.slack_api_post example_sa none "chat.update".toList
          [("channel".toList, example_host.slack_conversation_id example_obj),
           ("ts".toList, "111.222".toList),
           ("as_user".toList, "true".toList),
           ("text".toList, "new text".toList)]]⟩ :=
  ⟨rfl,
   ((forward_requests example_host example_conv "edit".toList (some ["new text".toList])
      example_sa example_obj (by decide) (by decide)).2.2.2.2 "111.222".toList rfl).1⟩

/-- C6. `send_cmd_cb` always returns FALSE.  With an error text it writes exactly one
message, error-flagged and equal to the error text, whatever the payload is.  Without one
and with a string field `response` in the payload it writes exactly one message, whose text
and flags are those the markup conversion yields for the response when started from the
system flag.  Without an error text and without such a field it writes nothing. -/
theorem send_cmd_cb_renders (host : Host) (sa : SlackAccount) (conv : PurpleConversation)
    (json : Option json_value) :
    (∀ error : CStr, send_cmd_cb host sa conv json (some error) =
      (false, [Effect.purple_conversation_write conv none error PURPLE_MESSAGE_ERROR])) ∧
    (∀ response : CStr, json_get_prop_strptr json "response".toList = some response →
      send_cmd_cb host sa conv json none =
      (false, [Effect.purple_conversation_write conv none
        (host.slack_message_to_html sa response PURPLE_MESSAGE_SYSTEM).1
        (host.slack_message_to_html sa response PURPLE_MESSAGE_SYSTEM).2])) ∧
    (json_get_prop_strptr json "response".toList = none →
      send_cmd_cb host sa conv json none = (false, [])) ∧
    ∀ error : Option CStr, (send_cmd_cb host sa conv json error).1 = false := by
  refine ⟨fun _ => rfl, ?_, ?_, ?_⟩
  · intro response h
    simp only [send_cmd_cb, h]
  · intro h
    simp only [send_cmd_cb, h]
  · intro error
    cases error with
    | some e => rfl
    | none =>
      cases h : json_get_prop_strptr json "response".toList <;> simp only [send_cmd_cb, h]

/-- Instance of C6: a reply with `response: "hello"` and no error is rendered once. -/
theorem send_cmd_cb_renders_witness :
    json_get_prop_strptr
      (some (json_value.json_object [("ok".toList, json_value.json_boolean true),
        ("response".toList, json_value.json_string "hello".toList)]))
      "response".toList = some "hello".toList ∧
    send_cmd_cb example_host example_sa example_conv
      (some (json_value.json_object [("ok".toList, json_value.json_boolean true),
        ("response".toList, json_value.json_string "hello".toList)])) none =
      (false, [Effect.purple_conversation_write example_conv none "*hello".toList
        PURPLE_MESSAGE_SYSTEM]) :=
  ⟨by decide,
   (send_cmd_cb_renders example_host example_sa example_conv
      (some (json_value.json_object [("ok".toList, json_value.json_boolean true),
        ("response".toList, json_value.json_string "hello".toList)]))).2.1
      "hello".toList (by decide)⟩

/-! ## Unresolved session or conversation -/

/-- C9 fails as stated: for a conversation whose account has no session `send_cmd` returns
FAILED without storing any error message. -/
theorem send_cmd_unbound_sets_no_error :
    (send_cmd example_host example_conv_unbound "me".toList (some ["waves".toList])).ret =
      PURPLE_CMD_RET_FAILED ∧
    (send_cmd example_host example_conv_unbound "me".toList (some ["waves".toList])).error =
      none ∧
    ¬ ∃ msg : CStr,
      (send_cmd example_host example_conv_unbound "me".toList (some ["waves".toList])).error =
        some msg := by
  refine ⟨by decide, by decide, ?_⟩
  rintro ⟨msg, h⟩
  have h2 : (send_cmd example_host example_conv_unbound "me".toList
      (some ["waves".toList])).error = none := by decide
  rw [h2] at h
  cases h

/-- C9, amended. For every command name and argument, when no session is bound to the
conversation's account all five handlers return FAILED, make no call and store no error;
when a session is bound but the conversation does not resolve they again return FAILED and
make no call, `send_cmd`, `cmd_thread` and `cmd_getthread` storing no error and `cmd_edit`
and `cmd_delete` storing `No last sent message`. -/
theorem handlers_fail_unresolved (host : Host) (conv : PurpleConversation) (cmd : CStr)
    (args : Option (List CStr)) :
    (host.get_slack_account conv.account = none →
      send_cmd host conv cmd args = ⟨PURPLE_CMD_RET_FAILED, none, []⟩ ∧
      cmd_edit host conv cmd args = ⟨PURPLE_CMD_RET_FAILED, none, []⟩ ∧
      cmd_delete host conv cmd args = ⟨PURPLE_CMD_RET_FAILED, none, []⟩ ∧
      cmd_thread host conv cmd args = ⟨PURPLE_CMD_RET_FAILED, none, []⟩ ∧
      cmd_getthread host conv cmd args = ⟨PURPLE_CMD_RET_FAILED, none, []⟩) ∧
    (∀ sa : SlackAccount, host.get_slack_account conv.account = some sa →
      host.slack_conversation_get_conversation sa conv = none →
      send_cmd host conv cmd args = ⟨PURPLE_CMD_RET_FAILED, none, []⟩ ∧
      cmd_edit host conv cmd args =
        ⟨PURPLE_CMD_RET_FAILED, some "No last sent message".toList, []⟩ ∧
      cmd_delete host conv cmd args =
        ⟨PURPLE_CMD_RET_FAILED, some "No last sent message".toList, []⟩ ∧
      cmd_thread host conv cmd args = ⟨PURPLE_CMD_RET_FAILED, none, []⟩ ∧
      cmd_getthread host conv cmd args = ⟨PURPLE_CMD_RET_FAILED, none, []⟩) := by
  constructor
  · intro hsa
    refine ⟨?_, ?_, ?_, ?_, ?_⟩
    · simp only [send_cmd, hsa]
    · simp only [cmd_edit, hsa]
    · simp only [cmd_delete, hsa]
    · simp only [cmd_thread, hsa]
    · simp only [cmd_getthread, hsa]
  · intro sa hsa hobj
    refine ⟨?_, ?_, ?_, ?_, ?_⟩
    · simp only [send_cmd, hsa, hobj]
    · simp only [cmd_edit, hsa, hobj]
    · simp only [cmd_delete, hsa, hobj]
    · simp only [cmd_thread, hsa, hobj]
    · simp only [cmd_getthread, hsa, hobj]

/-- Instance of the amended C9: a conversation without a session, and one that does not
resolve. -/
theorem handlers_fail_unresolved_witness :
    example_host.get_slack_account example_conv_unbound.account = none ∧
    cmd_thread example_host example_conv_unbound "th".toList (some ["/".toList]) =
      ⟨PURPLE_CMD_RET_FAILED, none, []⟩ ∧
    example_host.slack_conversation_get_conversation example_sa example_conv_unresolved = none ∧
    cmd_edit example_host example_conv_unresolved "edit".toList (some ["x".toList]) =
      ⟨PURPLE_CMD_RET_FAILED, some "No last sent message".toList, []⟩ :=
  ⟨by decide,
   ((handlers_fail_unresolved example_host example_conv_unbound "th".toList
      (some ["/".toList])).1 (by decide)).2.2.2.1,
   by decide,
   ((handlers_fail_unresolved example_host example_conv_unresolved "edit".toList
      (some ["x".toList])).2 example_sa (by decide) (by decide)).2.1⟩

/-! ## Registration names -/

/-- Storing into the array at the position right after a prefix replaces the element there. -/
theorem set_length_append (pre post : List Char) (q c : Char) :
    (pre ++ q :: post).set pre.length c = pre ++ c :: post := by
  induction pre with
  | nil => rfl
  | cons a t ih => simp [ih]

/-- The copying loop, started with `room` free positions before the last one, appends to the
part of the array already written the first `room` accepted characters of the string. -/
theorem copy_cmd_name_eq (s : CStr) : ∀ (room : Nat) (pre post : List Char),
    pre.length + room = sizeof_cmdbuf - 1 → post.length = room + 1 →
    copy_cmd_name s pre.length (pre ++ post) =
      (pre.length + ((s.takeWhile name_char).take room).length,
       pre ++ (s.takeWhile name_char).take room ++
         post.drop ((s.takeWhile name_char).take room).length) := by
  induction s with
  | nil => intro room pre post _ _; simp [copy_cmd_name]
  | cons c rest ih =>
    intro room pre post hroom hpost
    by_cases hc : name_char c = true
    · have hc2 : c ≠ ' ' ∧ c ≠ ':' ∧ c ≠ NUL := by simpa [name_char] using hc
      cases room with
      | zero =>
        have hlen : ¬ (pre.length < sizeof_cmdbuf - 1) := by omega
        simp [copy_cmd_name, hlen]
      | succ r =>
        have hlen : pre.length < sizeof_cmdbuf - 1 := by omega
        match post, hpost with
        | q :: post1, hpost =>
          have hpost1 : post1.length = r + 1 := by simpa using hpost
          have h1 : (pre ++ [c]).length + r = sizeof_cmdbuf - 1 := by
            simp only [List.length_append, List.length_singleton]; omega
          have h := ih r (pre ++ [c]) post1 h1 hpost1
          simp only [List.length_append, List.length_singleton, List.append_assoc,
            List.singleton_append] at h
          simp only [copy_cmd_name, hc2, hlen, and_self, ne_eq, not_false_eq_true, if_true,
            set_length_append, h, List.takeWhile_cons, hc, List.take_succ_cons,
            List.length_cons, List.drop_succ_cons, List.cons_append, Prod.mk.injEq]
          constructor
          · omega
          · simp
    · have hc2 : ¬ (c ≠ ' ' ∧ c ≠ ':' ∧ c ≠ NUL ∧ pre.length < sizeof_cmdbuf - 1) := by
        intro h
        exact hc (by simp [name_char, h.1, h.2.1, h.2.2.1])
      have hc3 : name_char c = false := by simpa using hc
      simp [copy_cmd_name, hc2, List.takeWhile_cons, hc3]

/-- Reading a character array up to the first rejected character. -/
theorem takeWhile_append_stop (q : Char → Bool) (l r : List Char) (x : Char)
    (hl : ∀ a ∈ l, q a = true) (hx : q x = false) : (l ++ x :: r).takeWhile q = l := by
  induction l with
  | nil => simp [List.takeWhile_cons, hx]
  | cons a t ih =>
    have ha : q a = true := hl a (List.mem_cons_self _ _)
    have ht : ∀ b ∈ t, q b = true := fun b hb => hl b (List.mem_cons_of_mem _ hb)
    simp [List.takeWhile_cons, ha, ih ht]

/-- One pass over an entry leaves in `cmdbuf` the first 15 accepted characters followed by the
terminator, which is the name registered. -/
theorem derive_cmd_name_eq (cmd : CStr) (cmdbuf : List Char)
    (hbuf : cmdbuf.length = sizeof_cmdbuf) :
    derive_cmdbuf cmd cmdbuf =
      (cmd.takeWhile name_char).take (sizeof_cmdbuf - 1) ++
        NUL :: cmdbuf.drop (((cmd.takeWhile name_char).take (sizeof_cmdbuf - 1)).length + 1) ∧
    derive_cmd_name cmd cmdbuf = (cmd.takeWhile name_char).take (sizeof_cmdbuf - 1) := by
  have h := copy_cmd_name_eq cmd (sizeof_cmdbuf - 1) [] cmdbuf (by simp)
    (by simp [hbuf, sizeof_cmdbuf])
  simp only [List.length_nil, Nat.zero_add, List.nil_append] at h
  have hk : ((cmd.takeWhile name_char).take (sizeof_cmdbuf - 1)).length < cmdbuf.length := by
    have := List.length_take_le (sizeof_cmdbuf - 1) (cmd.takeWhile name_char)
    simp only [sizeof_cmdbuf] at this hbuf ⊢
    omega
  have hbufeq : derive_cmdbuf cmd cmdbuf =
      (cmd.takeWhile name_char).take (sizeof_cmdbuf - 1) ++
        NUL :: cmdbuf.drop (((cmd.takeWhile name_char).take (sizeof_cmdbuf - 1)).length + 1) := by
    simp only [derive_cmdbuf, h]
    rw [List.drop_eq_getElem_cons hk, set_length_append]
  refine ⟨hbufeq, ?_⟩
  simp only [derive_cmd_name, cstr_of_array, hbufeq]
  apply takeWhile_append_stop
  · intro a ha
    have h1 : a ∈ cmd.takeWhile name_char := List.mem_of_mem_take ha
    have h2 : name_char a = true := List.mem_takeWhile_imp h1
    have h3 : a ≠ ' ' ∧ a ≠ ':' ∧ a ≠ NUL := by simpa [name_char] using h2
    simp [h3.2.2]
  · simp

/-- A pass does not change the size of `cmdbuf`. -/
theorem derive_cmdbuf_length (cmd : CStr) (cmdbuf : List Char) :
    (derive_cmdbuf cmd cmdbuf).length = cmdbuf.length := by
  have h : ∀ (s : CStr) (i : Nat) (buf : List Char),
      (copy_cmd_name s i buf).2.length = buf.length := by
    intro s
    induction s with
    | nil => intro i buf; rfl
    | cons c rest ih =>
      intro i buf
      simp only [copy_cmd_name]
      split
      · rw [ih]; simp
      · rfl
  simp [derive_cmdbuf, h]

/-- The loop over the catalogue registers each entry under its first 15 accepted characters,
whatever the earlier passes left in `cmdbuf`. -/
theorem register_catalogue_eq (cmds : List CStr) : ∀ cmdbuf : List Char,
    cmdbuf.length = sizeof_cmdbuf →
    register_catalogue cmds cmdbuf =
      cmds.map (fun cmd =>
        catalogue_registration ((cmd.takeWhile name_char).take (sizeof_cmdbuf - 1)) cmd) := by
  induction cmds with
  | nil => intro _ _; rfl
  | cons cmd rest ih =>
    intro cmdbuf hbuf
    have hlen : (derive_cmdbuf cmd cmdbuf).length = sizeof_cmdbuf := by
      rw [derive_cmdbuf_length, hbuf]
    have hname := (derive_cmd_name_eq cmd cmdbuf hbuf).2
    simp only [derive_cmd_name] at hname
    simp only [register_catalogue, List.map_cons, ih _ hlen, hname, catalogue_registration]

/-- In a C string the accepted characters at the front are the token. -/
theorem takeWhile_name_char (cmd : CStr) (h : NUL ∉ cmd) :
    cmd.takeWhile name_char = cmd_token cmd := by
  induction cmd with
  | nil => rfl
  | cons c t ih =>
    have hc : c ≠ NUL := fun e => h (e ▸ List.mem_cons_self _ _)
    have ht : NUL ∉ t := fun e => h (List.mem_cons_of_mem _ e)
    have ih2 := ih ht
    simp only [cmd_token] at ih2 ⊢
    simp only [List.takeWhile_cons, ih2, name_char, hc, ne_eq, not_false_eq_true, and_true]

/-- The registration made for the entry at position `n` of the catalogue. -/
theorem registered_name (catalogue : List CStr) (n : Nat) (cmd : CStr)
    (hentry : catalogue[n]? = some cmd) (hcstr : NUL ∉ cmd) :
    (slack_cmd_register catalogue)[n]? =
      some (catalogue_registration ((cmd_token cmd).take (sizeof_cmdbuf - 1)) cmd) := by
  have hn : n < catalogue.length := by
    rcases Nat.lt_or_ge n catalogue.length with h | h
    · exact h
    · rw [List.getElem?_eq_none h] at hentry
      cases hentry
  have hinit : cmdbuf_init.length = sizeof_cmdbuf := by simp [cmdbuf_init]
  simp only [slack_cmd_register, register_catalogue_eq catalogue cmdbuf_init hinit]
  rw [List.getElem?_append_left (by simpa using hn), List.getElem?_map, hentry]
  simp [takeWhile_name_char cmd hcstr]

/-- C10 fails as stated: for a catalogue entry beginning with the 17-character token
`notifications-off` the registered name is `notifications-o`, the first 15 characters of the
token, and not its first 14 characters. -/
theorem register_long_name_keeps_15 :
    (cmd_token "notifications-off:  Mute every channel".toList).length = 17 ∧
    ((slack_cmd_register ["notifications-off:  Mute every channel".toList])[0]?).map
      Registration.cmd = some "notifications-o".toList ∧
    ((slack_cmd_register ["notifications-off:  Mute every channel".toList])[0]?).map
      Registration.cmd ≠
      some ((cmd_token "notifications-off:  Mute every channel".toList).take 14) := by
  decide

/-- C10, amended. For every catalogue entry (a C string) that begins with a token of 15 or
more characters before any space or colon, the name `slack_cmd_register` registers for it,
wherever the entry stands in the catalogue, is exactly the first 15 characters of that
token. -/
theorem register_truncates_to_15 (catalogue : List CStr) (n : Nat) (cmd : CStr)
    (hentry : catalogue[n]? = some cmd) (hcstr : NUL ∉ cmd)
    (hlong : 15 ≤ (cmd_token cmd).length) :
    ((slack_cmd_register catalogue)[n]?).map Registration.cmd =
      some ((cmd_token cmd).take 15) ∧
    ((cmd_token cmd).take 15).length = 15 ∧
    ((slack_cmd_register catalogue)[n]?).map Registration.func =
      some PurpleCmdFunc.send_cmd := by
  rw [registered_name catalogue n cmd hentry hcstr]
  refine ⟨?_, ?_, ?_⟩
  · simp [catalogue_registration, sizeof_cmdbuf]
  · simp [List.length_take, hlong]
  · simp [catalogue_registration]

/-- Instance of the amended C10: the entry `notifications-off` after two ordinary ones. -/
theorem register_truncates_to_15_witness :
    NUL ∉ "notifications-off:  Mute every channel".toList ∧
    15 ≤ (cmd_token "notifications-off:  Mute every channel".toList).length ∧
    ((slack_cmd_register ["who:  List members".toList, "star:  Star it".toList,
        "notifications-off:  Mute every channel".toList])[2]?).map Registration.cmd =
      some "notifications-o".toList :=
  ⟨by decide, by decide,
   (register_truncates_to_15 ["who:  List members".toList, "star:  Star it".toList,
      "notifications-off:  Mute every channel".toList] 2
      "notifications-off:  Mute every channel".toList (by decide) (by decide) (by decide)).1⟩

/-- No entry of the shipped catalogue is long enough to be truncated: each is registered
under its whole token. -/
theorem slack_cmds_not_truncated :
    (register_catalogue slack_cmds cmdbuf_init).map Registration.cmd =
      slack_cmds.map cmd_token := by
  decide

end SlackCmd
